import Mathlib

/-!
Verification of the hawk.javascript error catcher (`src/catcher.ts`).

Shallow embedding of the `Catcher` class of `src/catcher.ts` and — for the
parts of the transport that live in the missing `src/modules/socket` module —
a model built from the specification (§4.2 Reconnection Controller and
§4.3 Outbound Queue of `spec.md`).

Conventions of the embedding:
* JavaScript exceptions are modelled with `Except JsErr`; a function that the
  source makes total via `try`/`catch` is a total Lean function.
* `undefined`/`null`-able values are `Option`s; the JS truthiness test
  `if (x)` on strings is modelled as `x ≠ ""` on present strings.
* Calls to `log(...)` and `console.log` are modelled by returning a
  `List LogEntry` trace.
* `localStorage` is modelled as `Option String` (the value stored under the
  single key the code uses) together with a trace of read/write operations.
* External collaborators that are not part of this repository
  (`StackParser.parse`, `Sanitizer.sanitize`, the transport's `send`) are
  taken as explicit function parameters.
-/

namespace Hawk

/-- Log events emitted through `log(...)` / `console.log` in `catcher.ts`. -/
inductive LogEntry where
  /-- Warning `'Integration Token is missed. …'` warning in the constructor. -/
  | warnTokenMissed
  /-- Info `'Connection lost. …'` info logged by the `onClose` callback given to the socket. -/
  | infoConnectionLost
  /-- Error `'Internal error ლ(´ڡ`ლ)'` logged by `formatAndSend`'s catch branch. -/
  | errInternal
  /-- Error `'WebSocket sending error'` logged by `sendErrorFormatted`'s rejection handler. -/
  | errWsSending
  /-- Warning `'Can not parse stack:'` warning logged by `getBacktrace`'s catch branch. -/
  | warnCantParseStack
  /-- Trace of `console.log('send', errorFormatted)` at the top of `sendErrorFormatted`. -/
  | consoleSend
  deriving DecidableEq, Repr

/-- JavaScript exception values that can be thrown by the modelled code. -/
inductive JsErr where
  /-- Thrown `new Error('Invalid integration token. There is no integration ID.')`. -/
  | invalidToken
  /-- Failure of `atob` / `JSON.parse` while decoding the token. -/
  | jsonParse
  /-- Thrown `TypeError` from accessing `.send` on an `undefined` transport. -/
  | typeErrorUndefined
  /-- Any other thrown value (e.g. from a user `beforeSend` callback or a stack parser). -/
  | thrown (n : Nat)
  deriving DecidableEq, Repr

/-- Record `AffectedUser` — the authenticated user record (`hawk.types`). -/
structure AffectedUser where
  id : String
  deriving DecidableEq, Repr

/-- A JavaScript `Error` instance: `name`, `message` and optional `stack`. -/
structure JsError where
  name : String
  message : String
  stack : Option String
  deriving DecidableEq, Repr

/-- The `Error | string` union accepted by `send` / `formatAndSend`. -/
inductive ErrorInput where
  | err (e : JsError)
  | str (s : String)
  deriving DecidableEq, Repr

/-- One parsed backtrace frame; its contents come from the external
`StackParser` module and are opaque to `catcher.ts`. -/
abbrev BacktraceFrame := String

/-- Type `EventContext` — a JS object of string keys; modelled as an ordered
association list (JS object property order). -/
abbrev EventContext := List (String × String)

/-- Embeds the JS property write `obj[k] = v`: replace the value of an existing key in
place, otherwise append the new key at the end (JS property-order semantics). -/
def setProp {α : Type} : List (String × α) → String → α → List (String × α)
  | [], k, v => [(k, v)]
  | (k', v') :: rest, k, v =>
    if k' = k then (k', v) :: rest else (k', v') :: setProp rest k v

/-- Embeds `Object.assign(target, src)`: write every property of `src` onto `target`,
in property order. -/
def objAssign {α : Type} (target src : List (String × α)) : List (String × α) :=
  src.foldl (fun acc kv => setProp acc kv.1 kv.2) target

/-- Embeds the JS property read `obj[k]` on the association-list model. -/
def ctxLookup {α : Type} (c : List (String × α)) (k : String) : Option α :=
  (c.find? (fun kv => kv.1 = k)).map (fun kv => kv.2)

/-- Pair of `window.innerWidth/innerHeight` collected by `getAddons`. -/
structure WindowMetrics where
  innerWidth : Int
  innerHeight : Int
  deriving DecidableEq, Repr

/-- The raw error triple composed by `getRawData` in debug mode. -/
structure RawErrorData where
  name : String
  message : String
  stack : Option String
  deriving DecidableEq, Repr

/-- Structure `JavaScriptAddons` as assembled by `getAddons` (plus the `vue`-style slot
written by `appendIntegrationAddons`, kept opaque as a `String`). -/
structure JavaScriptAddons where
  window : WindowMetrics
  userAgent : String
  url : String
  get : Option (List (String × Option String))
  RAW_EVENT_DATA : Option (Option RawErrorData)
  integrations : Option String
  deriving DecidableEq, Repr

/-- Structure `EventData<JavaScriptAddons>` — the payload built by `prepareErrorFormatted`. -/
structure EventData where
  title : String
  type : Option String
  release : Option String
  context : EventContext
  user : Option AffectedUser
  addons : JavaScriptAddons
  backtrace : Option (List BacktraceFrame)
  deriving DecidableEq, Repr

/-- Structure `CatcherMessage` — the envelope sent to the collector. -/
structure CatcherMessage where
  token : String
  catcherType : String
  payload : EventData
  deriving DecidableEq, Repr

/-- The callback value stored in the socket options' `onClose` slot.
`logConnectionLost` is the closure literal written in the `Catcher`
constructor; `custom` stands for any other function value (e.g. one a caller
could put in its settings). -/
inductive SocketCallback where
  | logConnectionLost
  | custom (n : Nat)
  deriving DecidableEq, Repr

/-- The options object passed to `new Socket({...})` by the constructor. -/
structure SocketOptions where
  collectorEndpoint : String
  reconnectionAttempts : Option Nat
  reconnectionTimeout : Option Nat
  onClose : SocketCallback
  deriving DecidableEq, Repr

/-- Result of `JSON.parse(atob(token))`: either the decode throws, or it
yields an object whose `integrationId` field may be absent. -/
inductive TokenDecode where
  | fail
  | obj (integrationId : Option String)
  deriving DecidableEq, Repr

/-- Settings `HawkInitialSettings` restricted to the fields the constructor reads.
The `onClose` field is modelled from the spec: the configuration surface in
§6 of `spec.md` lists an `onClose` callback among the settings consumed at
construction (the `types/hawk-initial-settings` file is not under `src/`). -/
structure HawkInitialSettings where
  token : String
  user : Option AffectedUser
  context : Option EventContext
  beforeSend : Option (EventData → Except JsErr EventData)
  debug : Option Bool
  release : Option String
  collectorEndpoint : Option String
  reconnectionAttempts : Option Nat
  reconnectionTimeout : Option Nat
  onClose : Option SocketCallback
  disableGlobalErrorsHandling : Option Bool

/-- The state of a constructed `Catcher` instance: its `readonly` fields.
`beforeSend` may throw, hence `Except`. The constant field
`type = 'errors/javascript'` is `Catcher.catcherType` below. -/
structure CatcherState where
  token : String
  debug : Bool
  release : Option String
  user : Option AffectedUser
  context : Option EventContext
  beforeSend : Option (EventData → Except JsErr EventData)
  transport : Option SocketOptions

/-- Browser environment snapshot read by `getAddons` / `getGetParams`. -/
structure Env where
  innerWidth : Int
  innerHeight : Int
  userAgent : String
  href : String
  search : String
  deriving DecidableEq, Repr

namespace Catcher

/-- Constant field `type = 'errors/javascript'` of the class (line 39). -/
def catcherType : String := "errors/javascript"

/-- Embeds `getTitle` (lines 304–316): a non-`Error` input yields its `toString()`
value; an `Error` yields its `message`. -/
def getTitle : ErrorInput → String
  | .str s => s
  | .err e => e.message

/-- Embeds `getType` (lines 323–335): `null` for a non-`Error` input, `error.name`
otherwise. -/
def getType : ErrorInput → Option String
  | .str _ => none
  | .err e => some e.name

/-- Embeds `getRelease` (lines 340–342): `this.release || null` (an empty release
string is falsy and becomes `null`). -/
def getRelease (release : Option String) : Option String :=
  match release with
  | some r => if r = "" then none else some r
  | none => none

/-- Embeds `getIntegrationId` (lines 347–356): decode the token, then throw if the
`integrationId` field is falsy or the empty string. -/
def getIntegrationId (decode : String → TokenDecode) (token : String) :
    Except JsErr String :=
  match decode token with
  | .fail => .error .jsonParse
  | .obj none => .error .invalidToken
  | .obj (some id) => if id = "" then .error .invalidToken else .ok id

/-- Embeds `getContext` (lines 363–375): `Object.assign` the instance context and the
per-call context onto a fresh `{}` and pass the result to
`Sanitizer.sanitize` (an external module, taken as the parameter `san`). -/
def getContext (san : EventContext → EventContext)
    (instCtx : Option EventContext) (ctx : Option EventContext) : EventContext :=
  let m0 : EventContext := []
  let m1 := match instCtx with
    | some c => objAssign m0 c
    | none => m0
  let m2 := match ctx with
    | some c => objAssign m1 c
    | none => m1
  san m2

/-- Embeds `getUser` (lines 380–382): `this.user || null`. -/
def getUser (user : Option AffectedUser) : Option AffectedUser := user

/-- Embeds `getGetParams` (lines 387–406): split `location.search` minus its first
character on `&`, then each pair on `=`, accumulating an object. -/
def getGetParams (search : String) : Option (List (String × Option String)) :=
  let searchString := search.drop 1
  if searchString = "" then none
  else
    some ((searchString.splitOn "&").foldl
      (fun acc pair =>
        match pair.splitOn "=" with
        | [] => acc
        | k :: rest => setProp acc k rest.head?)
      [])

/-- Embeds `getBacktrace` (lines 413–431): `null` for non-`Error` input; otherwise
parse via the external `StackParser` (parameter `parse`), and on a parse
failure log a warning and return `null`. -/
def getBacktrace (parse : JsError → Except JsErr (List BacktraceFrame)) :
    ErrorInput → Option (List BacktraceFrame) × List LogEntry
  | .str _ => (none, [])
  | .err e =>
    match parse e with
    | .ok frames => (some frames, [])
    | .error _ => (none, [.warnCantParseStack])

/-- Embeds `getRawData` (lines 469–481): `null` unless the input is an `Error`. -/
def getRawData : ErrorInput → Option RawErrorData
  | .str _ => none
  | .err e => some { name := e.name, message := e.message, stack := e.stack }

/-- Embeds `getAddons` (lines 438–462). -/
def getAddons (debug : Bool) (env : Env) (error : ErrorInput) : JavaScriptAddons :=
  { window := { innerWidth := env.innerWidth, innerHeight := env.innerHeight }
    userAgent := env.userAgent
    url := env.href
    get := getGetParams env.search
    RAW_EVENT_DATA := if debug then some (getRawData error) else none
    integrations := none }

/-- The payload object literal built inside `prepareErrorFormatted`
(lines 275–283) before `beforeSend` is consulted. -/
def preparePayload (st : CatcherState)
    (parse : JsError → Except JsErr (List BacktraceFrame))
    (san : EventContext → EventContext) (env : Env)
    (error : ErrorInput) (ctx : Option EventContext) : EventData :=
  { title := getTitle error
    type := getType error
    release := getRelease st.release
    context := getContext san st.context ctx
    user := getUser st.user
    addons := getAddons st.debug env error
    backtrace := (getBacktrace parse error).1 }

/-- Embeds `prepareErrorFormatted` (lines 274–297): build the payload, run
`beforeSend` on it when configured (it may throw), and wrap the result into
the `{token, catcherType, payload}` envelope. The log trace comes from
`getBacktrace`. -/
def prepareErrorFormatted (st : CatcherState)
    (parse : JsError → Except JsErr (List BacktraceFrame))
    (san : EventContext → EventContext) (env : Env)
    (error : ErrorInput) (ctx : Option EventContext) :
    Except JsErr CatcherMessage × List LogEntry :=
  match st.beforeSend with
  | none =>
    (.ok { token := st.token, catcherType := catcherType
           payload := preparePayload st parse san env error ctx },
     (getBacktrace parse error).2)
  | some bs =>
    match bs (preparePayload st parse san env error ctx) with
    | .ok p =>
      (.ok { token := st.token, catcherType := catcherType, payload := p },
       (getBacktrace parse error).2)
    | .error e => (.error e, (getBacktrace parse error).2)

/-- Embeds `appendIntegrationAddons` (lines 490–492): `Object.assign` the integration
addons onto the payload's addons (modelled by filling the opaque slot). -/
def appendIntegrationAddons (m : CatcherMessage) (intAddons : String) : CatcherMessage :=
  { m with payload := { m.payload with
      addons := { m.payload.addons with integrations := some intAddons } } }

/-- Embeds `sendErrorFormatted` (lines 259–266): `console.log`, then
`transport.send(...)` with a `.catch` that logs a rejection. Accessing
`.send` on an `undefined` transport throws a `TypeError` (second component).
`tsend` is the external socket's `send`, `.error` meaning a rejected promise. -/
def sendErrorFormatted (transport : Option SocketOptions)
    (tsend : CatcherMessage → Except JsErr Unit) (m : CatcherMessage) :
    List LogEntry × Option JsErr :=
  match transport with
  | none => ([.consoleSend], some .typeErrorUndefined)
  | some _ =>
    (.consoleSend ::
      (match tsend m with
       | .ok _ => []
       | .error _ => [.errWsSending]), none)

/-- The `if (integrationAddons)` step of `formatAndSend` (lines 244–246). -/
def applyIntegrationAddons (m : CatcherMessage) : Option String → CatcherMessage
  | some a => appendIntegrationAddons m a
  | none => m

/-- Embeds `formatAndSend` (lines 232–252): try `prepareErrorFormatted`, append
integration addons when given, hand to `sendErrorFormatted`; any throw in the
`try` block is caught and logged as an internal error. Returns the (unchanged)
instance state and the log trace — the function is total: nothing escapes. -/
def formatAndSend (st : CatcherState)
    (parse : JsError → Except JsErr (List BacktraceFrame))
    (san : EventContext → EventContext) (env : Env)
    (tsend : CatcherMessage → Except JsErr Unit)
    (error : ErrorInput) (intAddons : Option String) (ctx : Option EventContext) :
    CatcherState × List LogEntry :=
  match prepareErrorFormatted st parse san env error ctx with
  | (.error _, plogs) => (st, plogs ++ [.errInternal])
  | (.ok m, plogs) =>
    match sendErrorFormatted st.transport tsend (applyIntegrationAddons m intAddons) with
    | (slogs, none) => (st, plogs ++ slogs)
    | (slogs, some _) => (st, plogs ++ slogs ++ [.errInternal])

/-- Embeds `send` (lines 174–176): the public entry point, delegating to
`formatAndSend(message, undefined, context)`. -/
def send (st : CatcherState)
    (parse : JsError → Except JsErr (List BacktraceFrame))
    (san : EventContext → EventContext) (env : Env)
    (tsend : CatcherMessage → Except JsErr Unit)
    (error : ErrorInput) (ctx : Option EventContext) :
    CatcherState × List LogEntry :=
  formatAndSend st parse san env tsend error none ctx

end Catcher

/-- The single `localStorage` key used by `getGeneratedUser` (line 143). -/
def userIdKey : String := "hawk-user-id"

/-- One `localStorage` operation, for the access trace. -/
inductive LSOp where
  | get (key : String)
  | set (key value : String)
  deriving DecidableEq, Repr

namespace Catcher

/-- Embeds `getGeneratedUser` (lines 141–156): read the stored id; if it is
truthy use it, otherwise generate a fresh id (`genId`, the value produced by
the external `generateRandomId`) and store it. Returns the user, the
`localStorage` state after the call, and the operation trace. -/
def getGeneratedUser (genId : String) (ls : Option String) :
    AffectedUser × Option String × List LSOp :=
  match ls with
  | some stored =>
    if stored = "" then
      ({ id := genId }, some genId, [.get userIdKey, .set userIdKey genId])
    else
      ({ id := stored }, some stored, [.get userIdKey])
  | none => ({ id := genId }, some genId, [.get userIdKey, .set userIdKey genId])

/-- Embeds the socket-options expression of the constructor (lines 113–123):
`collectorEndpoint: settings.collectorEndpoint || 'wss://' + id + '.k1.hawk.so:443/ws'`
(an absent or empty setting is falsy and falls back to the derived URL, whose
computation may throw), `reconnectionAttempts` and `reconnectionTimeout`
passed through, and `onClose` the constructor's own logging closure. -/
def socketOptions (decode : String → TokenDecode) (s : HawkInitialSettings) :
    Except JsErr SocketOptions :=
  let fallback : Except JsErr SocketOptions :=
    (getIntegrationId decode s.token).map (fun id =>
      { collectorEndpoint := "wss://" ++ id ++ ".k1.hawk.so:443/ws"
        reconnectionAttempts := s.reconnectionAttempts
        reconnectionTimeout := s.reconnectionTimeout
        onClose := .logConnectionLost })
  match s.collectorEndpoint with
  | some ep =>
    if ep = "" then fallback
    else
      .ok { collectorEndpoint := ep
            reconnectionAttempts := s.reconnectionAttempts
            reconnectionTimeout := s.reconnectionTimeout
            onClose := .logConnectionLost }
  | none => fallback

/-- The `this.user = settings.user || Catcher.getGeneratedUser()` step of the
constructor (line 97): when `settings.user` is provided, `localStorage` is
neither read nor written (`getGeneratedUser` is not even called). -/
def constructUser (genId : String) (s : HawkInitialSettings) (ls : Option String) :
    AffectedUser × Option String × List LSOp :=
  match s.user with
  | some u => (u, ls, [])
  | none => getGeneratedUser genId ls

/-- The record of readonly fields the constructor assigns (lines 94–99). -/
def constructState (s : HawkInitialSettings) (u : AffectedUser)
    (transport : Option SocketOptions) : CatcherState :=
  { token := s.token
    debug := s.debug.getD false
    release := s.release
    user := some u
    context := s.context
    beforeSend := s.beforeSend
    transport := transport }

/-- Embeds the `Catcher` constructor (lines 87–135): set the readonly fields
(possibly touching `localStorage` through `getGeneratedUser`); with a falsy
token, log a warning and return without a transport; otherwise build the
socket options (which may throw out of the constructor). Returns the
construction outcome, the `localStorage` state after it, the operation
trace and the log trace. -/
def construct (decode : String → TokenDecode) (genId : String)
    (s : HawkInitialSettings) (ls : Option String) :
    Except JsErr CatcherState × Option String × List LSOp × List LogEntry :=
  if s.token = "" then
    (.ok (constructState s (constructUser genId s ls).1 none),
     (constructUser genId s ls).2.1, (constructUser genId s ls).2.2, [.warnTokenMissed])
  else
    match socketOptions decode s with
    | .error e => (.error e, (constructUser genId s ls).2.1, (constructUser genId s ls).2.2, [])
    | .ok opts =>
      (.ok (constructState s (constructUser genId s ls).1 (some opts)),
       (constructUser genId s ls).2.1, (constructUser genId s ls).2.2, [])

end Catcher

/-- Characterisation of the endpoint of any transport the constructor builds:
either the provided, non-empty `collectorEndpoint` setting, or the URL
derived from the successfully decoded integration id — never an undefined
value. -/
def endpointFromSettings (decode : String → TokenDecode) (s : HawkInitialSettings)
    (opts : SocketOptions) : Prop :=
  (∃ ep, s.collectorEndpoint = some ep ∧ ep ≠ "" ∧ opts.collectorEndpoint = ep) ∨
  (∃ id, Catcher.getIntegrationId decode s.token = .ok id ∧
    opts.collectorEndpoint = "wss://" ++ id ++ ".k1.hawk.so:443/ws")

namespace Socket

/-- Modelled from the spec: the `src/modules/socket` module is not under
`src/`; §4.2 of `spec.md` gives the reconnection controller's states
`Idle → Connecting → Open → Reconnecting → PermanentlyClosed`. -/
inductive ConnState where
  | Idle
  | Connecting
  | Open
  | Reconnecting
  | PermanentlyClosed
  deriving DecidableEq, Repr

/-- Modelled from the spec: controller state plus the `RetryState` of §3
(`attemptsMade`, `maxAttempts`); `baseDelay` does not affect which
transitions happen and is omitted. -/
structure Controller where
  state : ConnState
  attemptsMade : Nat
  maxAttempts : Nat
  deriving DecidableEq, Repr

/-- Modelled from the spec: the events driving the §4.2 state machine —
an explicit `connect()` (or first `send()`), the connection reporting
`onOpen`, an unexpected `onClose` (also how a connection attempt fails),
and the expiry of the constant reconnection delay timer. -/
inductive SockEv where
  | connectReq
  | openOk
  | unexpectedClose
  | retryTimer
  deriving DecidableEq, Repr

/-- Modelled from the spec: one transition of the §4.2 state machine.  The
`Bool` is `true` exactly when the transition issues a new connection attempt.
`Idle → Connecting` on `connect()`; `Connecting → Open` on `onOpen`, resetting
`attemptsMade` to 0; `Open/Connecting → Reconnecting` on unexpected close;
`Reconnecting → PermanentlyClosed` when `attemptsMade` already equals
`maxAttempts` when a reconnect would be needed, else `Reconnecting →
Connecting` with `attemptsMade` incremented; `PermanentlyClosed` is terminal
except for an explicit `connect()`, which re-enters `Connecting` and resets
`attemptsMade`. -/
def ctrlStep (c : Controller) (e : SockEv) : Controller × Bool :=
  match c.state, e with
  | .Idle, .connectReq => ({ c with state := .Connecting }, true)
  | .Connecting, .openOk => ({ c with state := .Open, attemptsMade := 0 }, false)
  | .Open, .unexpectedClose => ({ c with state := .Reconnecting }, false)
  | .Connecting, .unexpectedClose => ({ c with state := .Reconnecting }, false)
  | .Reconnecting, .retryTimer =>
    if c.attemptsMade = c.maxAttempts then
      ({ c with state := .PermanentlyClosed }, false)
    else
      ({ c with state := .Connecting, attemptsMade := c.attemptsMade + 1 }, true)
  | .PermanentlyClosed, .connectReq =>
    ({ c with state := .Connecting, attemptsMade := 0 }, true)
  | _, _ => (c, false)

/-- Modelled from the spec: run the controller over an event list, returning
the final state and the total number of connection attempts issued. -/
def ctrlRun (c : Controller) : List SockEv → Controller × Nat
  | [] => (c, 0)
  | e :: rest =>
    ((ctrlRun (ctrlStep c e).1 rest).1,
     (if (ctrlStep c e).2 then 1 else 0) + (ctrlRun (ctrlStep c e).1 rest).2)

/-- Modelled from the spec: the event history of one unexpected loss followed
by `n` failed reconnection attempts — each attempt is the retry timer firing
(issuing an attempt) and the new connection closing before opening. -/
def failedCycle (n : Nat) : List SockEv :=
  .unexpectedClose :: (List.replicate n [SockEv.retryTimer, SockEv.unexpectedClose]).flatten

/-- Modelled from the spec: §4.3 Outbound Queue, `enqueue` appends at the
tail, so queue order is submission order. -/
def enqueue {α : Type} (q : List α) (m : α) : List α :=
  q ++ [m]

/-- Modelled from the spec: submitting a sequence of messages while no
connection is open enqueues each in turn. -/
def submitAll {α : Type} (q : List α) (ms : List α) : List α :=
  ms.foldl enqueue q

/-- Modelled from the spec: §4.3 `drain` removes entries strictly in queue
order, attempts `connection.send()` for each (`ok`), and stops at the first
failure, leaving the remainder queued.  Returns (delivered, remaining). -/
def drain {α : Type} (ok : α → Bool) : List α → List α × List α
  | [] => ([], [])
  | m :: rest =>
    if ok m then (m :: (drain ok rest).1, (drain ok rest).2)
    else ([], m :: rest)

end Socket

/-! Concrete sample inputs, used to instantiate the universally quantified
theorems below on executable data. -/

/-- A stack parser that succeeds with an empty frame list. -/
def exParse : JsError → Except JsErr (List BacktraceFrame) := fun _ => .ok []

/-- A sanitizer that passes the context through unchanged. -/
def exSan : EventContext → EventContext := id

/-- A browser environment snapshot. -/
def exEnv : Env :=
  { innerWidth := 1024, innerHeight := 768, userAgent := "ua", href := "https://x", search := "" }

/-- Socket options as the constructor would build them for a valid token. -/
def exOpts : SocketOptions :=
  { collectorEndpoint := "wss://abc.k1.hawk.so:443/ws"
    reconnectionAttempts := none, reconnectionTimeout := none
    onClose := .logConnectionLost }

/-- A constructed catcher with a transport and no `beforeSend`. -/
def exSt : CatcherState :=
  { token := "tok0", debug := false, release := none, user := none, context := none
    beforeSend := none, transport := some exOpts }

/-- A constructed catcher whose `beforeSend` callback throws. -/
def exStBS : CatcherState :=
  { exSt with beforeSend := some (fun _ => .error (.thrown 7)) }

/-- A transport whose `send` always resolves. -/
def exTsendOk : CatcherMessage → Except JsErr Unit := fun _ => .ok ()

/-- A transport whose `send` always rejects. -/
def exTsendFail : CatcherMessage → Except JsErr Unit := fun _ => .error (.thrown 3)

/-- The message `prepareErrorFormatted` builds from `exSt` for the plain
string input `"boom"` in environment `exEnv`. -/
def exMsg : CatcherMessage :=
  { token := "tok0", catcherType := "errors/javascript"
    payload :=
      { title := "boom", type := none, release := none, context := [], user := none
        addons :=
          { window := { innerWidth := 1024, innerHeight := 768 }
            userAgent := "ua", url := "https://x", get := none
            RAW_EVENT_DATA := none, integrations := none }
        backtrace := none } }

/-- A token decoder mapping the one valid token `"tok"` to integration id
`"abc"`. -/
def decodeEx : String → TokenDecode :=
  fun t => if t = "tok" then .obj (some "abc") else .fail

/-- A token decoder whose only decodable token `"bad"` lacks an
`integrationId` field. -/
def decodeBad : String → TokenDecode :=
  fun t => if t = "bad" then .obj none else .fail

/-- Settings with a token that decodes to an object without an
`integrationId`, and no explicit collector endpoint. -/
def sBad : HawkInitialSettings :=
  { token := "bad", user := some { id := "u" }, context := none, beforeSend := none
    debug := none, release := none, collectorEndpoint := none
    reconnectionAttempts := none, reconnectionTimeout := none
    onClose := none, disableGlobalErrorsHandling := none }

/-- Settings with a valid token, an explicitly provided (empty) collector
endpoint and an explicitly provided `onClose` callback. -/
def sCx : HawkInitialSettings :=
  { token := "tok", user := some { id := "u" }, context := none, beforeSend := none
    debug := none, release := none, collectorEndpoint := some ""
    reconnectionAttempts := some 3, reconnectionTimeout := some 5
    onClose := some (.custom 0), disableGlobalErrorsHandling := none }

/-- The socket options the constructor actually builds from `sCx`. -/
def optsCx : SocketOptions :=
  { collectorEndpoint := "wss://abc.k1.hawk.so:443/ws"
    reconnectionAttempts := some 3, reconnectionTimeout := some 5
    onClose := .logConnectionLost }

/-- Settings with a valid token, no endpoint override and no user. -/
def sW5 : HawkInitialSettings :=
  { token := "tok", user := some { id := "u" }, context := none, beforeSend := none
    debug := none, release := none, collectorEndpoint := none
    reconnectionAttempts := some 2, reconnectionTimeout := some 9
    onClose := none, disableGlobalErrorsHandling := none }

/-- The socket options the constructor builds from `sW5`. -/
def optsW5 : SocketOptions :=
  { collectorEndpoint := "wss://abc.k1.hawk.so:443/ws"
    reconnectionAttempts := some 2, reconnectionTimeout := some 9
    onClose := .logConnectionLost }

/-- The catcher state the constructor builds from `sW5`. -/
def stW5 : CatcherState :=
  { token := "tok", debug := false, release := none, user := some { id := "u" }
    context := none, beforeSend := none, transport := some optsW5 }

/-- Settings without a token and without a user (constructor warns and
stores a generated user). -/
def s6 : HawkInitialSettings :=
  { token := "", user := none, context := none, beforeSend := none
    debug := none, release := none, collectorEndpoint := none
    reconnectionAttempts := none, reconnectionTimeout := none
    onClose := none, disableGlobalErrorsHandling := none }

/-! Helper lemmas shared by the claim theorems. -/

theorem Socket.submitAll_eq {α : Type} (ms : List α) :
    ∀ q : List α, Socket.submitAll q ms = q ++ ms := by
  induction ms with
  | nil => intro q; simp [Socket.submitAll]
  | cons m rest ih =>
    intro q
    simp only [Socket.submitAll, List.foldl] at *
    rw [ih (Socket.enqueue q m)]
    simp [Socket.enqueue]

theorem Socket.drain_append {α : Type} (ok : α → Bool) (q : List α) :
    (Socket.drain ok q).1 ++ (Socket.drain ok q).2 = q := by
  induction q with
  | nil => simp [Socket.drain]
  | cons m rest ih =>
    by_cases h : ok m
    · simp [Socket.drain, h, ih]
    · simp [Socket.drain, h]

theorem Socket.drain_all_ok {α : Type} (q : List α) :
    Socket.drain (fun _ => true) q = (q, []) := by
  induction q with
  | nil => rfl
  | cons m rest ih => simp [Socket.drain, ih]

theorem ctxLookup_nil {α : Type} (k : String) :
    ctxLookup ([] : List (String × α)) k = none := rfl

theorem ctxLookup_cons {α : Type} (k0 : String) (v0 : α)
    (rest : List (String × α)) (k : String) :
    ctxLookup ((k0, v0) :: rest) k = if k0 = k then some v0 else ctxLookup rest k := by
  by_cases h : k0 = k
  · simp [ctxLookup, List.find?, h]
  · simp [ctxLookup, List.find?, h]

theorem ctxLookup_setProp {α : Type} (c : List (String × α)) (k k' : String) (v : α) :
    ctxLookup (setProp c k v) k' = if k' = k then some v else ctxLookup c k' := by
  induction c with
  | nil =>
    rw [setProp, ctxLookup_cons, ctxLookup_nil]
    by_cases h : k' = k
    · rw [if_pos h.symm, if_pos h]
    · rw [if_neg (fun hh => h hh.symm), if_neg h]
  | cons kv rest ih =>
    rcases kv with ⟨k0, v0⟩
    by_cases h0 : k0 = k <;> by_cases h1 : k0 = k' <;> by_cases h2 : k' = k <;>
      simp_all [setProp, ctxLookup_cons]

theorem ctxLookup_not_mem {α : Type} (c : List (String × α)) (k : String)
    (h : k ∉ c.map Prod.fst) : ctxLookup c k = none := by
  induction c with
  | nil => rfl
  | cons kv rest ih =>
    simp only [List.map_cons, List.mem_cons, not_or] at h
    rw [← Prod.mk.eta (p := kv), ctxLookup_cons, if_neg (fun hh => h.1 hh.symm), ih h.2]

theorem ctxLookup_objAssign {α : Type} (src : List (String × α)) :
    ∀ (t : List (String × α)) (k : String), (src.map Prod.fst).Nodup →
      ctxLookup (objAssign t src) k = (ctxLookup src k).or (ctxLookup t k) := by
  induction src with
  | nil =>
    intro t k _
    show ctxLookup t k = Option.or none (ctxLookup t k)
    rfl
  | cons kv rest ih =>
    intro t k hnd
    rcases kv with ⟨k0, v0⟩
    simp only [List.map_cons, List.nodup_cons] at hnd
    have hstep : objAssign t ((k0, v0) :: rest) = objAssign (setProp t k0 v0) rest := rfl
    rw [hstep, ih (setProp t k0 v0) k hnd.2, ctxLookup_setProp, ctxLookup_cons]
    by_cases hk : k = k0
    · have hrest : ctxLookup rest k = none :=
        ctxLookup_not_mem rest k (fun hmem => hnd.1 (hk ▸ hmem))
      rw [hrest, if_pos hk, if_pos hk.symm]
      rfl
    · rw [if_neg hk, if_neg (fun hh => hk hh.symm)]

theorem Catcher.construct_transport (decode : String → TokenDecode) (genId : String)
    (s : HawkInitialSettings) (ls : Option String) (st : CatcherState) (opts : SocketOptions)
    (h : (Catcher.construct decode genId s ls).1 = .ok st)
    (ht : st.transport = some opts) :
    Catcher.socketOptions decode s = .ok opts := by
  unfold Catcher.construct at h
  split at h
  · injection h with h
    rw [← h] at ht
    simp [Catcher.constructState] at ht
  · split at h
    · cases h
    · rename_i opts' heq
      injection h with h
      rw [← h] at ht
      simp only [Catcher.constructState, Option.some.injEq] at ht
      rw [heq, ht]

theorem Catcher.socketOptions_ok (decode : String → TokenDecode)
    (s : HawkInitialSettings) (opts : SocketOptions)
    (h : Catcher.socketOptions decode s = .ok opts) :
    opts.reconnectionAttempts = s.reconnectionAttempts ∧
    opts.reconnectionTimeout = s.reconnectionTimeout ∧
    opts.onClose = .logConnectionLost ∧
    endpointFromSettings decode s opts := by
  have hfall :
      ∀ hh : (Catcher.getIntegrationId decode s.token).map (fun id =>
          ({ collectorEndpoint := "wss://" ++ id ++ ".k1.hawk.so:443/ws"
             reconnectionAttempts := s.reconnectionAttempts
             reconnectionTimeout := s.reconnectionTimeout
             onClose := .logConnectionLost } : SocketOptions)) = .ok opts,
        opts.reconnectionAttempts = s.reconnectionAttempts ∧
        opts.reconnectionTimeout = s.reconnectionTimeout ∧
        opts.onClose = .logConnectionLost ∧
        endpointFromSettings decode s opts := by
    intro hh
    cases hgi : Catcher.getIntegrationId decode s.token with
    | error e => rw [hgi] at hh; cases hh
    | ok id =>
      rw [hgi] at hh
      injection hh with hh
      rw [← hh]
      exact ⟨rfl, rfl, rfl, .inr ⟨id, hgi, rfl⟩⟩
  unfold Catcher.socketOptions at h
  split at h
  · rename_i ep hep
    split at h
    · exact hfall h
    · rename_i hne
      injection h with h
      rw [← h]
      exact ⟨rfl, rfl, rfl, .inl ⟨ep, hep, hne, rfl⟩⟩
  · exact hfall h

theorem Catcher.construct_trace (decode : String → TokenDecode) (genId : String)
    (s : HawkInitialSettings) (ls : Option String) :
    (Catcher.construct decode genId s ls).2.1 = (Catcher.constructUser genId s ls).2.1 ∧
    (Catcher.construct decode genId s ls).2.2.1 = (Catcher.constructUser genId s ls).2.2 := by
  unfold Catcher.construct
  split
  · exact ⟨rfl, rfl⟩
  · split
    · exact ⟨rfl, rfl⟩
    · exact ⟨rfl, rfl⟩

theorem Catcher.formatAndSend_fst (st : CatcherState)
    (parse : JsError → Except JsErr (List BacktraceFrame))
    (san : EventContext → EventContext) (env : Env)
    (tsend : CatcherMessage → Except JsErr Unit)
    (error : ErrorInput) (intAddons : Option String) (ctx : Option EventContext) :
    (Catcher.formatAndSend st parse san env tsend error intAddons ctx).1 = st := by
  unfold Catcher.formatAndSend
  split
  · rfl
  · split
    · rfl
    · rfl

theorem Socket.ctrlStep_max (c : Socket.Controller) (e : Socket.SockEv) :
    (Socket.ctrlStep c e).1.maxAttempts = c.maxAttempts := by
  rcases c with ⟨st, a, m⟩
  cases st <;> cases e <;> simp [Socket.ctrlStep] <;> split <;> rfl

theorem Socket.ctrlStep_inv (c : Socket.Controller) (e : Socket.SockEv)
    (h : c.attemptsMade ≤ c.maxAttempts) :
    (Socket.ctrlStep c e).1.attemptsMade ≤ (Socket.ctrlStep c e).1.maxAttempts := by
  rcases c with ⟨st, a, m⟩
  cases st <;> cases e <;> simp_all [Socket.ctrlStep]
  split
  · simpa using h
  · rename_i hne
    simp at hne ⊢
    omega

theorem Socket.ctrlRun_inv (evs : List Socket.SockEv) :
    ∀ c : Socket.Controller, c.attemptsMade ≤ c.maxAttempts →
      (Socket.ctrlRun c evs).1.attemptsMade ≤ (Socket.ctrlRun c evs).1.maxAttempts := by
  induction evs with
  | nil => intro c h; exact h
  | cons e rest ih =>
    intro c h
    exact ih (Socket.ctrlStep c e).1 (Socket.ctrlStep_inv c e h)

theorem Socket.ctrlRun_max (evs : List Socket.SockEv) :
    ∀ c : Socket.Controller, (Socket.ctrlRun c evs).1.maxAttempts = c.maxAttempts := by
  induction evs with
  | nil => intro c; rfl
  | cons e rest ih =>
    intro c
    rw [Socket.ctrlRun, ih (Socket.ctrlStep c e).1, Socket.ctrlStep_max]

theorem Socket.ctrlRun_append (l1 l2 : List Socket.SockEv) :
    ∀ c : Socket.Controller,
      Socket.ctrlRun c (l1 ++ l2)
        = ((Socket.ctrlRun (Socket.ctrlRun c l1).1 l2).1,
           (Socket.ctrlRun c l1).2 + (Socket.ctrlRun (Socket.ctrlRun c l1).1 l2).2) := by
  induction l1 with
  | nil => intro c; simp [Socket.ctrlRun]
  | cons e rest ih =>
    intro c
    have h1 : Socket.ctrlRun c (e :: rest ++ l2)
        = ((Socket.ctrlRun (Socket.ctrlStep c e).1 (rest ++ l2)).1,
           (if (Socket.ctrlStep c e).2 then 1 else 0)
             + (Socket.ctrlRun (Socket.ctrlStep c e).1 (rest ++ l2)).2) := rfl
    have h2 : Socket.ctrlRun c (e :: rest)
        = ((Socket.ctrlRun (Socket.ctrlStep c e).1 rest).1,
           (if (Socket.ctrlStep c e).2 then 1 else 0)
             + (Socket.ctrlRun (Socket.ctrlStep c e).1 rest).2) := rfl
    rw [h1, h2, ih (Socket.ctrlStep c e).1]
    simp only [Prod.mk.injEq]
    exact ⟨trivial, by omega⟩

theorem Socket.ctrlRun_cycles (m : Nat) :
    ∀ (n a : Nat), a + n ≤ m →
      Socket.ctrlRun ⟨.Reconnecting, a, m⟩
          (List.replicate n [Socket.SockEv.retryTimer, Socket.SockEv.unexpectedClose]).flatten
        = (⟨.Reconnecting, a + n, m⟩, n) := by
  intro n
  induction n with
  | zero => intro a _; rfl
  | succ k ih =>
    intro a h
    have hne : a ≠ m := by omega
    have hflat :
        (List.replicate (k + 1)
            [Socket.SockEv.retryTimer, Socket.SockEv.unexpectedClose]).flatten
          = [Socket.SockEv.retryTimer, Socket.SockEv.unexpectedClose]
            ++ (List.replicate k
                [Socket.SockEv.retryTimer, Socket.SockEv.unexpectedClose]).flatten := by
      rw [List.replicate_succ, List.flatten_cons]
    have hpair :
        Socket.ctrlRun ⟨.Reconnecting, a, m⟩
            [Socket.SockEv.retryTimer, Socket.SockEv.unexpectedClose]
          = (⟨.Reconnecting, a + 1, m⟩, 1) := by
      simp [Socket.ctrlRun, Socket.ctrlStep, hne]
    rw [hflat, Socket.ctrlRun_append, hpair]
    rw [ih (a + 1) (by omega)]
    simp only [Prod.mk.injEq, Socket.Controller.mk.injEq]
    refine ⟨⟨trivial, by omega, trivial⟩, by omega⟩

theorem Socket.ctrlRun_closed (m : Nat) (evs : List Socket.SockEv)
    (hno : Socket.SockEv.connectReq ∉ evs) :
    ∀ a : Nat,
      Socket.ctrlRun ⟨.PermanentlyClosed, a, m⟩ evs = (⟨.PermanentlyClosed, a, m⟩, 0) := by
  induction evs with
  | nil => intro a; rfl
  | cons e rest ih =>
    intro a
    have he : e ≠ Socket.SockEv.connectReq := fun h => hno (h ▸ List.mem_cons_self e rest)
    have hrest : Socket.SockEv.connectReq ∉ rest := fun h => hno (List.mem_cons_of_mem e h)
    have hstep :
        Socket.ctrlStep ⟨.PermanentlyClosed, a, m⟩ e = (⟨.PermanentlyClosed, a, m⟩, false) := by
      cases e <;> simp [Socket.ctrlStep] <;> exact absurd rfl he
    rw [Socket.ctrlRun, hstep]
    simp [ih hrest a]

/-- C1: for every sequence of messages submitted via `send()` while no
connection is open, the queue holds them in submission order; a drain splits
the queue into a delivered prefix and a remaining suffix whose concatenation
is exactly the queue (no reordering, duplication or silent drop), and a drain
whose sends all succeed delivers exactly the submitted sequence in order. -/
theorem C1_queue_fifo (ms : List String) (ok : String → Bool) :
    Socket.submitAll [] ms = ms ∧
    (Socket.drain ok ms).1 ++ (Socket.drain ok ms).2 = ms ∧
    Socket.drain (fun _ => true) ms = (ms, []) := by
  refine ⟨?_, Socket.drain_append ok ms, Socket.drain_all_ok ms⟩
  rw [Socket.submitAll_eq]
  simp

/-- C8: a string input yields a formatted event with `title` its `toString()`
value (the string itself), `type = null` and `backtrace = null`; an `Error`
input yields `title = error.message` and `type = error.name`. -/
theorem C8_title_type_backtrace (s : String) (e : JsError)
    (parse : JsError → Except JsErr (List BacktraceFrame)) :
    Catcher.getTitle (.str s) = s ∧
    Catcher.getType (.str s) = none ∧
    (Catcher.getBacktrace parse (.str s)).1 = none ∧
    Catcher.getTitle (.err e) = e.message ∧
    Catcher.getType (.err e) = some e.name :=
  ⟨rfl, rfl, rfl, rfl, rfl⟩

/-- C4: with a finite `maxAttempts = m`, (i) in every state reachable from
the initial controller, `attemptsMade` never exceeds `maxAttempts`; (ii) the
run consisting of an unexpected loss followed by `m` failed reconnection
attempts issues exactly `m` connection attempts and its one further retry
tick reaches `PermanentlyClosed` without issuing another attempt; (iii) from
`PermanentlyClosed`, any event sequence that contains no explicit
`connect()` leaves the state `PermanentlyClosed` and issues no connection
attempts. -/
theorem C4_reconnection_bound (m a : Nat) (evs evs2 : List Socket.SockEv)
    (hno : Socket.SockEv.connectReq ∉ evs2) :
    (Socket.ctrlRun ⟨.Idle, 0, m⟩ evs).1.attemptsMade ≤ m ∧
    (Socket.ctrlRun ⟨.Open, 0, m⟩
        (Socket.failedCycle m ++ [Socket.SockEv.retryTimer])).1.state
      = .PermanentlyClosed ∧
    (Socket.ctrlRun ⟨.Open, 0, m⟩
        (Socket.failedCycle m ++ [Socket.SockEv.retryTimer])).2 = m ∧
    (Socket.ctrlRun ⟨.PermanentlyClosed, a, m⟩ evs2).1.state = .PermanentlyClosed ∧
    (Socket.ctrlRun ⟨.PermanentlyClosed, a, m⟩ evs2).2 = 0 := by
  have hmax : (Socket.ctrlRun ⟨.Idle, 0, m⟩ evs).1.maxAttempts = m :=
    Socket.ctrlRun_max evs ⟨.Idle, 0, m⟩
  have hinv := Socket.ctrlRun_inv evs ⟨.Idle, 0, m⟩ (Nat.zero_le m)
  have hcycle :
      Socket.ctrlRun ⟨.Open, 0, m⟩ (Socket.failedCycle m)
        = (⟨.Reconnecting, m, m⟩, m) := by
    have hstep :
        Socket.ctrlRun ⟨.Open, 0, m⟩ (Socket.failedCycle m)
          = ((Socket.ctrlRun ⟨.Reconnecting, 0, m⟩
              (List.replicate m
                [Socket.SockEv.retryTimer, Socket.SockEv.unexpectedClose]).flatten).1,
             0 + (Socket.ctrlRun ⟨.Reconnecting, 0, m⟩
              (List.replicate m
                [Socket.SockEv.retryTimer, Socket.SockEv.unexpectedClose]).flatten).2) := rfl
    rw [hstep, Socket.ctrlRun_cycles m m 0 (by omega)]
    simp
  have hlast :
      Socket.ctrlRun ⟨.Reconnecting, m, m⟩ [Socket.SockEv.retryTimer]
        = (⟨.PermanentlyClosed, m, m⟩, 0) := by
    simp [Socket.ctrlRun, Socket.ctrlStep]
  have hfin := Socket.ctrlRun_append (Socket.failedCycle m)
    [Socket.SockEv.retryTimer] ⟨.Open, 0, m⟩
  rw [hcycle, hlast] at hfin
  have hclosed := Socket.ctrlRun_closed m evs2 hno a
  refine ⟨hinv.trans (le_of_eq hmax), ?_, ?_, ?_, ?_⟩
  · rw [hfin]
  · rw [hfin]; simp
  · rw [hclosed]
  · rw [hclosed]

/-- Witness for C4 at `maxAttempts = 2`, a connect/open history and a
connect-free tail. -/
theorem C4_reconnection_bound_witness :
    (Socket.ctrlRun ⟨.Idle, 0, 2⟩
        [Socket.SockEv.connectReq, Socket.SockEv.openOk]).1.attemptsMade ≤ 2 ∧
    (Socket.ctrlRun ⟨.Open, 0, 2⟩
        (Socket.failedCycle 2 ++ [Socket.SockEv.retryTimer])).1.state
      = .PermanentlyClosed ∧
    (Socket.ctrlRun ⟨.Open, 0, 2⟩
        (Socket.failedCycle 2 ++ [Socket.SockEv.retryTimer])).2 = 2 ∧
    (Socket.ctrlRun ⟨.PermanentlyClosed, 2, 2⟩
        [Socket.SockEv.retryTimer, Socket.SockEv.openOk]).1.state
      = .PermanentlyClosed ∧
    (Socket.ctrlRun ⟨.PermanentlyClosed, 2, 2⟩
        [Socket.SockEv.retryTimer, Socket.SockEv.openOk]).2 = 0 :=
  C4_reconnection_bound 2 2 [Socket.SockEv.connectReq, Socket.SockEv.openOk]
    [Socket.SockEv.retryTimer, Socket.SockEv.openOk] (by decide)

/-- C2: the public `send()` never throws synchronously — for every catcher
state, input message and transport behaviour it returns with the state
unchanged (first conjunct, universally over all inputs); and when the
transport's `send` rejects, the rejection is captured by
`sendErrorFormatted`'s rejection handler and only logged as a WebSocket
sending error (second conjunct). -/
theorem C2_send_never_throws (st : CatcherState)
    (parse : JsError → Except JsErr (List BacktraceFrame))
    (san : EventContext → EventContext) (env : Env)
    (tsend : CatcherMessage → Except JsErr Unit)
    (error : ErrorInput) (ctx : Option EventContext)
    (m : CatcherMessage) (plogs : List LogEntry) (e : JsErr) (opts : SocketOptions)
    (hp : Catcher.prepareErrorFormatted st parse san env error ctx = (.ok m, plogs))
    (ht : st.transport = some opts)
    (hts : tsend m = .error e) :
    (∀ (st2 : CatcherState) parse2 san2 env2 tsend2 error2 ctx2,
        (Catcher.send st2 parse2 san2 env2 tsend2 error2 ctx2).1 = st2) ∧
    Catcher.send st parse san env tsend error ctx
      = (st, plogs ++ [.consoleSend, .errWsSending]) := by
  constructor
  · intro st2 p2 s2 e2 t2 err2 c2
    exact Catcher.formatAndSend_fst st2 p2 s2 e2 t2 err2 none c2
  · unfold Catcher.send Catcher.formatAndSend
    rw [hp]
    simp [Catcher.applyIntegrationAddons, Catcher.sendErrorFormatted, ht, hts]

/-- Witness for C2: a concrete catcher, the string message `"boom"` and an
always-rejecting transport. -/
theorem C2_send_never_throws_witness :
    (∀ (st2 : CatcherState) parse2 san2 env2 tsend2 error2 ctx2,
        (Catcher.send st2 parse2 san2 env2 tsend2 error2 ctx2).1 = st2) ∧
    Catcher.send exSt exParse exSan exEnv exTsendFail (.str "boom") none
      = (exSt, [.consoleSend, .errWsSending]) :=
  C2_send_never_throws exSt exParse exSan exEnv exTsendFail (.str "boom") none
    exMsg [] (.thrown 3) exOpts rfl rfl rfl

/-- C7: when formatting a message throws (here: a throwing `beforeSend`),
`formatAndSend` catches the error, logs it as an internal error and returns
with the catcher state unchanged, so any subsequent `send()` behaves exactly
as on the original state. -/
theorem C7_format_failure_isolated (st : CatcherState)
    (parse : JsError → Except JsErr (List BacktraceFrame))
    (san : EventContext → EventContext) (env : Env)
    (tsend : CatcherMessage → Except JsErr Unit)
    (error : ErrorInput) (intAddons : Option String) (ctx : Option EventContext)
    (e : JsErr) (plogs : List LogEntry)
    (hp : Catcher.prepareErrorFormatted st parse san env error ctx = (.error e, plogs)) :
    Catcher.formatAndSend st parse san env tsend error intAddons ctx
      = (st, plogs ++ [.errInternal]) ∧
    ∀ parse2 san2 env2 tsend2 error2 ctx2,
      Catcher.send (Catcher.formatAndSend st parse san env tsend error intAddons ctx).1
          parse2 san2 env2 tsend2 error2 ctx2
        = Catcher.send st parse2 san2 env2 tsend2 error2 ctx2 := by
  have h1 : Catcher.formatAndSend st parse san env tsend error intAddons ctx
      = (st, plogs ++ [.errInternal]) := by
    unfold Catcher.formatAndSend
    rw [hp]
  exact ⟨h1, fun _ _ _ _ _ _ => by rw [h1]⟩

/-- Witness for C7: a concrete catcher whose `beforeSend` throws. -/
theorem C7_format_failure_isolated_witness :
    Catcher.formatAndSend exStBS exParse exSan exEnv exTsendOk (.str "boom") none none
      = (exStBS, [.errInternal]) ∧
    ∀ parse2 san2 env2 tsend2 error2 ctx2,
      Catcher.send
          (Catcher.formatAndSend exStBS exParse exSan exEnv exTsendOk
            (.str "boom") none none).1
          parse2 san2 env2 tsend2 error2 ctx2
        = Catcher.send exStBS parse2 san2 env2 tsend2 error2 ctx2 :=
  C7_format_failure_isolated exStBS exParse exSan exEnv exTsendOk (.str "boom")
    none none (.thrown 7) [] rfl

/-- C9: every `CatcherMessage` produced by `prepareErrorFormatted` carries
the construction-time token and the constant catcher type
`'errors/javascript'`, whatever the input, context and `beforeSend` are —
`beforeSend` can only rewrite the payload. -/
theorem C9_envelope_fixed (st : CatcherState)
    (parse : JsError → Except JsErr (List BacktraceFrame))
    (san : EventContext → EventContext) (env : Env)
    (error : ErrorInput) (ctx : Option EventContext)
    (m : CatcherMessage) (logs : List LogEntry)
    (hp : Catcher.prepareErrorFormatted st parse san env error ctx = (.ok m, logs)) :
    m.token = st.token ∧ m.catcherType = "errors/javascript" := by
  unfold Catcher.prepareErrorFormatted at hp
  split at hp
  · injection hp with h1 h2
    injection h1 with h1
    rw [← h1]
    exact ⟨rfl, rfl⟩
  · split at hp
    · injection hp with h1 h2
      injection h1 with h1
      rw [← h1]
      exact ⟨rfl, rfl⟩
    · injection hp with h1 h2
      simp at h1

/-- Witness for C9 at the concrete catcher `exSt` and message `"boom"`. -/
theorem C9_envelope_fixed_witness :
    exMsg.token = "tok0" ∧ exMsg.catcherType = "errors/javascript" :=
  C9_envelope_fixed exSt exParse exSan exEnv (.str "boom") none exMsg [] rfl

/-- C3: for every settings value with a truthy token that decodes (base64
then JSON) to an object with a missing or empty `integrationId` and with no
explicit `collectorEndpoint`, the constructor throws the invalid-token error
(first conjunct); and whenever construction succeeds with a transport, that
transport's endpoint is a definite string — the provided non-empty setting
or the token-derived URL — never an undefined value (second conjunct). -/
theorem C3_invalid_token_fatal (decode : String → TokenDecode) (genId : String)
    (s : HawkInitialSettings) (ls : Option String)
    (hne : s.token ≠ "") (hep : s.collectorEndpoint = none)
    (hid : decode s.token = .obj none ∨ decode s.token = .obj (some "")) :
    (Catcher.construct decode genId s ls).1 = .error .invalidToken ∧
    ∀ (decode2 : String → TokenDecode) (genId2 : String) (s2 : HawkInitialSettings)
      (ls2 : Option String) (st : CatcherState) (opts : SocketOptions),
      (Catcher.construct decode2 genId2 s2 ls2).1 = .ok st →
      st.transport = some opts →
      endpointFromSettings decode2 s2 opts := by
  constructor
  · have hgi : Catcher.getIntegrationId decode s.token = .error .invalidToken := by
      rcases hid with h | h
      · simp [Catcher.getIntegrationId, h]
      · simp [Catcher.getIntegrationId, h]
    have hso : Catcher.socketOptions decode s = .error .invalidToken := by
      unfold Catcher.socketOptions
      rw [hep, hgi]
      rfl
    unfold Catcher.construct
    rw [if_neg hne, hso]
  · intro decode2 genId2 s2 ls2 st opts h ht
    exact (Catcher.socketOptions_ok decode2 s2 opts
      (Catcher.construct_transport decode2 genId2 s2 ls2 st opts h ht)).2.2.2

/-- Witness for C3: settings `sBad` whose token decodes to an object without
an `integrationId` and no endpoint override. -/
theorem C3_invalid_token_fatal_witness :
    (Catcher.construct decodeBad "g" sBad none).1 = .error .invalidToken ∧
    ∀ (decode2 : String → TokenDecode) (genId2 : String) (s2 : HawkInitialSettings)
      (ls2 : Option String) (st : CatcherState) (opts : SocketOptions),
      (Catcher.construct decode2 genId2 s2 ls2).1 = .ok st →
      st.transport = some opts →
      endpointFromSettings decode2 s2 opts :=
  C3_invalid_token_fatal decodeBad "g" sBad none (by decide) rfl (.inl rfl)

/-- Counterexample to C5 as stated: for the settings `sCx` — a valid token,
`collectorEndpoint` provided as the (falsy) empty string and an `onClose`
callback provided in the settings — the constructed transport's endpoint is
the token-derived URL, not the provided `collectorEndpoint`, and its
`onClose` is the constructor's fixed logging closure, not the settings'
callback. -/
theorem C5_counterexample :
    (Catcher.construct decodeEx "g" sCx none).1.toOption.map CatcherState.transport
      = some (some optsCx) ∧
    sCx.onClose = some (SocketCallback.custom 0) ∧
    optsCx.onClose ≠ SocketCallback.custom 0 ∧
    sCx.collectorEndpoint = some "" ∧
    optsCx.collectorEndpoint ≠ "" :=
  ⟨rfl, rfl, by decide, rfl, by decide⟩

/-- C5 (amended): the transport is fixed at construction with
`reconnectionAttempts` and `reconnectionTimeout` passed through from the
settings, `onClose` the constructor's own connection-lost logging closure,
and the endpoint equal to `settings.collectorEndpoint` when that is provided
and non-empty, otherwise `wss://` ++ integrationId ++ `.k1.hawk.so:443/ws`
for the decoded integration id. -/
theorem C5_transport_fixed_at_construction (decode : String → TokenDecode)
    (genId : String) (s : HawkInitialSettings) (ls : Option String)
    (st : CatcherState) (opts : SocketOptions)
    (h : (Catcher.construct decode genId s ls).1 = .ok st)
    (ht : st.transport = some opts) :
    opts.reconnectionAttempts = s.reconnectionAttempts ∧
    opts.reconnectionTimeout = s.reconnectionTimeout ∧
    opts.onClose = .logConnectionLost ∧
    endpointFromSettings decode s opts :=
  Catcher.socketOptions_ok decode s opts
    (Catcher.construct_transport decode genId s ls st opts h ht)

/-- Witness for the amended C5 at the concrete settings `sW5`. -/
theorem C5_transport_fixed_at_construction_witness :
    optsW5.reconnectionAttempts = sW5.reconnectionAttempts ∧
    optsW5.reconnectionTimeout = sW5.reconnectionTimeout ∧
    optsW5.onClose = .logConnectionLost ∧
    endpointFromSettings decodeEx sW5 optsW5 :=
  C5_transport_fixed_at_construction decodeEx "g" sW5 none stW5 optsW5 rfl rfl

/-- Counterexample to C6 as stated: constructing with no `settings.user`
while `localStorage` holds the `'hawk-user-id'` value `""` — a stored id that
`getItem` does return — writes a freshly generated id back to `localStorage`
and does not return the stored id, contradicting the claim's "if a stored id
exists, that id is returned and localStorage is not written". -/
theorem C6_counterexample :
    (Catcher.construct (fun _ => .fail) "gen" s6 (some "")).2.2.1
        = [LSOp.get userIdKey, LSOp.set userIdKey "gen"] ∧
    (Catcher.construct (fun _ => .fail) "gen" s6 (some "")).2.2.1
        ≠ [LSOp.get userIdKey] ∧
    (Catcher.getGeneratedUser "gen" (some "")).1 ≠ ({ id := "" } : AffectedUser) :=
  ⟨rfl, by decide, by decide⟩

/-- C6 (amended): the persisted user identifier follows the
read-once-at-construction, write-once-if-absent rule: when `settings.user`
is absent, the `'hawk-user-id'` key is read exactly once; if a stored
non-empty id exists it is returned and `localStorage` is not written; if
none exists (or the stored id is the empty string, which is falsy) a freshly
generated id is written under the key exactly once and returned; when
`settings.user` is provided, `localStorage` is neither read nor written. -/
theorem C6_user_id_storage (decode : String → TokenDecode) (genId : String)
    (s : HawkInitialSettings) (ls : Option String) :
    (s.user.isSome = true →
      (Catcher.construct decode genId s ls).2.2.1 = [] ∧
      (Catcher.construct decode genId s ls).2.1 = ls) ∧
    (s.user = none →
      (Catcher.construct decode genId s ls).2.2.1
          = (Catcher.getGeneratedUser genId ls).2.2 ∧
      (Catcher.construct decode genId s ls).2.1
          = (Catcher.getGeneratedUser genId ls).2.1 ∧
      ((Catcher.getGeneratedUser genId ls).2.2).countP
          (fun op => match op with | .get _ => true | .set _ _ => false) = 1) ∧
    (∀ v, ls = some v → v ≠ "" →
      Catcher.getGeneratedUser genId ls
        = ({ id := v }, some v, [.get userIdKey])) ∧
    (ls = none →
      Catcher.getGeneratedUser genId ls
        = ({ id := genId }, some genId, [.get userIdKey, .set userIdKey genId])) := by
  have htr := Catcher.construct_trace decode genId s ls
  refine ⟨?_, ?_, ?_, ?_⟩
  · intro hu
    obtain ⟨u, hu⟩ := Option.isSome_iff_exists.mp hu
    have hcu : Catcher.constructUser genId s ls = (u, ls, []) := by
      unfold Catcher.constructUser
      rw [hu]
    rw [htr.2, htr.1, hcu]
    exact ⟨rfl, rfl⟩
  · intro hu
    have hcu : Catcher.constructUser genId s ls = Catcher.getGeneratedUser genId ls := by
      unfold Catcher.constructUser
      rw [hu]
    refine ⟨by rw [htr.2, hcu], by rw [htr.1, hcu], ?_⟩
    cases ls with
    | none => rfl
    | some v =>
      by_cases hv : v = ""
      · simp [Catcher.getGeneratedUser, hv]
      · simp [Catcher.getGeneratedUser, hv]
  · intro v hv hne
    rw [hv]
    simp [Catcher.getGeneratedUser, hne]
  · intro hv
    rw [hv]
    rfl

/-- Witness for the amended C6: a construction with no user setting and an
empty `localStorage` reads the key once, stores the generated id once and
returns it. -/
theorem C6_user_id_storage_witness :
    (Catcher.construct (fun _ => .fail) "gen" s6 none).2.2.1
        = [LSOp.get userIdKey, LSOp.set userIdKey "gen"] := by
  have h := C6_user_id_storage (fun _ => .fail) "gen" s6 none
  rw [(h.2.1 rfl).1, h.2.2.2 rfl]

/-- C10: `getContext` returns the sanitizer applied to a fresh object built
by assigning the constructor context and then the per-call context onto `{}`
(first conjunct); on the merged object, per-call values win on shared keys
and constructor values fill the rest (second conjunct, for contexts with
JS-object-like duplicate-free keys); and no `send()` call mutates the stored
instance context (third conjunct). -/
theorem C10_context_merge (san : EventContext → EventContext)
    (instCtx callCtx : EventContext) (k : String)
    (h1 : (instCtx.map Prod.fst).Nodup) (h2 : (callCtx.map Prod.fst).Nodup) :
    Catcher.getContext san (some instCtx) (some callCtx)
      = san (objAssign (objAssign [] instCtx) callCtx) ∧
    ctxLookup (objAssign (objAssign [] instCtx) callCtx) k
      = (ctxLookup callCtx k).or (ctxLookup instCtx k) ∧
    ∀ (st : CatcherState) (parse : JsError → Except JsErr (List BacktraceFrame))
      (env : Env) (tsend : CatcherMessage → Except JsErr Unit)
      (error : ErrorInput) (ctx2 : Option EventContext),
      ((Catcher.send st parse san env tsend error ctx2).1).context = st.context := by
  refine ⟨rfl, ?_, ?_⟩
  · rw [ctxLookup_objAssign callCtx (objAssign [] instCtx) k h2,
      ctxLookup_objAssign instCtx [] k h1, ctxLookup_nil]
    cases ctxLookup callCtx k <;> cases ctxLookup instCtx k <;> rfl
  · intro st parse env tsend error ctx2
    rw [Catcher.send, Catcher.formatAndSend_fst]

/-- Witness for C10: a two-key constructor context and a per-call context
overriding one of the keys. -/
theorem C10_context_merge_witness :
    Catcher.getContext exSan (some [("a", "1"), ("b", "2")]) (some [("b", "3")])
      = exSan (objAssign (objAssign [] [("a", "1"), ("b", "2")]) [("b", "3")]) ∧
    ctxLookup (objAssign (objAssign [] [("a", "1"), ("b", "2")]) [("b", "3")]) "b"
      = (ctxLookup [("b", "3")] "b").or (ctxLookup [("a", "1"), ("b", "2")] "b") ∧
    ∀ (st : CatcherState) (parse : JsError → Except JsErr (List BacktraceFrame))
      (env : Env) (tsend : CatcherMessage → Except JsErr Unit)
      (error : ErrorInput) (ctx2 : Option EventContext),
      ((Catcher.send st parse exSan env tsend error ctx2).1).context = st.context :=
  C10_context_merge exSan [("a", "1"), ("b", "2")] [("b", "3")] "b"
    (by decide) (by decide)

end Hawk
